import Mathlib

/-!
Verification of the LumixEngine editor asset-tile (thumbnail) subsystem, a shallow
embedding of ModelPlugin in src/renderer/editor/plugins.cpp.

Paths are abstracted as natural numbers.  External collaborators (resource manager,
renderer, crnlib, stb, the file system) are abstracted by an environment of oracles;
their observable effects are recorded as an explicit action trace.
-/

namespace LumixTiles

/-- Resource types distinguished by ModelPlugin::createTile (plugins.cpp 932-956):
Texture, Material, Shader, Model, PrefabResource, and any other (unrecognized) type. -/
inductive ResourceType where
  | texture
  | material
  | shader
  | model
  | prefab
  | other
deriving Repr, DecidableEq

/-- The kind of a 3D tile request as dispatched by ModelPlugin::update (798-809):
a Model resource or a PrefabResource. -/
inductive RKind where
  | model
  | prefab
deriving Repr, DecidableEq

/-- Readiness of an asynchronously loaded resource, as polled by ModelPlugin::update
via Resource::isFailure / Resource::isReady (788-794). -/
inductive ResState where
  | loading
  | ready
  | failure
deriving Repr, DecidableEq

/-- Observable effects on external collaborators, recorded in program order:
resource loads/unloads, entity destruction, GPU texture destruction, the GPU
read-back request, a successful DDS file write, placeholder copyFile calls, and
the two error-log lines of the tile code. -/
inductive Action where
  | loadResource (p : Nat)
  | unloadResource (p : Nat)
  | destroyEntity
  | destroyTexture
  | readback
  | fileWrite (out : Nat)
  | copyTexturePlaceholder (out : Nat)
  | copyMaterialPlaceholder (out : Nat)
  | copyShaderPlaceholder (out : Nat)
  | logLoadError (p : Nat)
  | logSaveError (out : Nat)
deriving Repr, DecidableEq

/-- Oracles for the external collaborators: resource readiness, the request kind
(model vs prefab, decided by the "fab" extension), prefab instantiation success
(instantiatePrefab returning a valid entity that has a model instance), whether a
path names a DDS container, file-open success, crn DDS decompression success,
generic stbi decode success, crn_compress success, output-file-open success,
copyFile success, and the crc32 path hash. -/
structure Env where
  rdy : Nat → ResState
  kind : Nat → RKind
  instOk : Nat → Bool
  isDds : Nat → Bool
  openOk : Nat → Bool
  ddsOk : Nat → Bool
  stbiOk : Nat → Bool
  encodeOk : Nat → Bool
  writeOk : Nat → Bool
  copyOk : Nat → Bool
  crc32 : Nat → Nat

/-- The mutable plugin state: ModelPlugin::TileData (959-977) — the bounded ring
m_tile.queue, the overflow array m_tile.paths, frame_countdown, whether
m_entity_in_fly is a valid entity, path_hash — together with the worker queue
TextureTileCreator::tiles and its semaphore count (989-1004).  The processed field
is ghost instrumentation: the requests for which renderTile has been invoked. -/
structure SysState where
  queue : List Nat
  paths : List Nat
  countdown : Int
  entityInFly : Bool
  pathHash : Nat
  tiles : List Nat
  sem : Nat
  processed : List Nat
deriving Repr, DecidableEq

/-- Initial state: empty ring, empty overflow, frame_countdown = -1 (959-977),
m_entity_in_fly = INVALID_ENTITY, empty worker queue (path_hash is uninitialized
in the source; it is first written before its first read, modeled as 0). -/
def initState : SysState :=
  { queue := [], paths := [], countdown := -1, entityInFly := false, pathHash := 0,
    tiles := [], sem := 0, processed := [] }

/-- Modelled from the spec: Queue (engine container, not among the reviewed source
files) is the bounded FIFO ring RenderAdmission of capacity N = 8; it is full when
it holds 8 elements; push appends at the write end, pop removes the front, front
is the oldest element. -/
def queueFull (q : List Nat) : Bool := q.length == 8

/-- ModelPlugin::pushTileQueue (737-755): load the resource for the path (recorded
as a loadResource action by callers) and push it into the ring.  The caller
guarantees the ring is not full (ASSERT at 739). -/
def pushTileQueue (s : SysState) (p : Nat) : SysState :=
  { s with queue := s.queue ++ [p] }

/-- ModelPlugin::popTileQueue (758-766): pop the ring front; if the overflow array
m_tile.paths is non-empty, take its back element (paths.back(); paths.pop() — the
engine Array is a dynamic array whose back is the last element and whose pop
removes the last element, as also witnessed by the worker queue usage at 392-393)
and push it into the ring.  The refill goes through pushTileQueue, which in the
source also starts the asynchronous resource load; that external effect is not
recorded as an action by this state-only function, and no theorem below asserts
anything about load actions during a refill. -/
def popTileQueue (s : SysState) : SysState :=
  match s.paths.getLast? with
  | none => { s with queue := s.queue.tail }
  | some p => pushTileQueue { s with queue := s.queue.tail, paths := s.paths.dropLast } p

/-- ModelPlugin::saveAsDDS (700-734): crn_compress may fail (nullptr — return false,
nothing written); otherwise the output file is opened CREATE_AND_WRITE, which may
fail (return false, nothing written); on success the DDS bytes are written and
true is returned. -/
def saveAsDDS (env : Env) (out : Nat) : Bool × List Action :=
  if env.encodeOk out then
    if env.writeOk out then (true, [Action.fileWrite out]) else (false, [])
  else (false, [])

/-- ModelPlugin::renderTile(Model*, Matrix*) (882-929): create the entity, frame the
camera on the AABB, render the offscreen pipeline, create the read-back texture,
blit, issue bgfx::readTexture, destroy the entity, set frame_countdown = 2, record
path_hash, and unload the model.  The early-outs for a missing render scene or
renderer are not modeled: both exist by construction (createTileUniverse). -/
def renderTileModel (env : Env) (s : SysState) (r : Nat) : SysState × List Action :=
  ({ s with countdown := 2, pathHash := env.crc32 r, processed := s.processed ++ [r] },
   [Action.readback, Action.destroyEntity, Action.unloadResource r])

/-- ModelPlugin::renderTile(PrefabResource*) (813-834): instantiate the prefab; if
that fails to yield a valid entity with a model instance (823-828), return with the
request dropped; otherwise record path_hash, unload the prefab immediately (831),
mark the entity in flight and register renderPrefabSecondStage on the model. -/
def renderTilePrefab (env : Env) (s : SysState) (r : Nat) : SysState × List Action :=
  if env.instOk r then
    ({ s with entityInFly := true, pathHash := env.crc32 r, processed := s.processed ++ [r] },
     [Action.unloadResource r])
  else
    ({ s with processed := s.processed ++ [r] }, [])

/-- ModelPlugin::renderPrefabSecondStage (837-879): fires as the model resource's
state-change callback; if the model is not ready it returns with no change;
otherwise it renders, blits, issues the read-back, destroys the in-flight entity
(875), sets frame_countdown = 2 and invalidates m_entity_in_fly. -/
def renderPrefabSecondStage (ready : Bool) (s : SysState) : SysState × List Action :=
  if ready then
    ({ s with countdown := 2, entityInFly := false },
     [Action.readback, Action.destroyEntity])
  else (s, [])

/-- ModelPlugin::update (769-810): if frame_countdown >= 0, decrement it and, when
it reaches -1, save the pixel buffer as DDS at the cache path for path_hash (the
boolean result of saveAsDDS is discarded at 777) and destroy the read-back
texture, then return.  Otherwise, if an entity is in flight or the ring is empty,
return.  Otherwise inspect the front resource: on failure log and pop; if not
ready return; if ready pop (refilling from the overflow) and dispatch to
renderTile by resource type. -/
def update (env : Env) (s : SysState) : SysState × List Action :=
  if 0 ≤ s.countdown then
    let s1 : SysState := { s with countdown := s.countdown - 1 }
    if s1.countdown = -1 then
      (s1, (saveAsDDS env s1.pathHash).2 ++ [Action.destroyTexture])
    else (s1, [])
  else if s.entityInFly then (s, [])
  else
    match s.queue with
    | [] => (s, [])
    | r :: _ =>
      match env.rdy r with
      | ResState.failure => (popTileQueue s, [Action.logLoadError r])
      | ResState.loading => (s, [])
      | ResState.ready =>
        let s1 := popTileQueue s
        match env.kind r with
        | RKind.model => renderTileModel env s1 r
        | RKind.prefab => renderTilePrefab env s1 r

/-- ModelPlugin::createTile (932-956): Texture requests are appended to the worker
queue under the spin lock and the semaphore is signaled (always accepted);
Material and Shader tiles are a static placeholder copy whose copyFile result is
returned; anything that is neither Model nor PrefabResource is rejected with no
side effect; Model and Prefab requests go to the ring when it is not full (with an
asynchronous resource load), else to the overflow array — accepted either way. -/
def createTile (env : Env) (s : SysState) (ty : ResourceType) (ip op : Nat) :
    Bool × SysState × List Action :=
  match ty with
  | ResourceType.texture =>
      (true, { s with tiles := s.tiles ++ [ip], sem := s.sem + 1 }, [])
  | ResourceType.material =>
      (env.copyOk op, s, [Action.copyMaterialPlaceholder op])
  | ResourceType.shader =>
      (env.copyOk op, s, [Action.copyShaderPlaceholder op])
  | ResourceType.other => (false, s, [])
  | ResourceType.model =>
      if queueFull s.queue then (true, { s with paths := s.paths ++ [ip] }, [])
      else (true, pushTileQueue s ip, [Action.loadResource ip])
  | ResourceType.prefab =>
      if queueFull s.queue then (true, { s with paths := s.paths ++ [ip] }, [])
      else (true, pushTileQueue s ip, [Action.loadResource ip])

/-- The createTile resource type corresponding to a request kind. -/
def submitKind (k : RKind) : ResourceType :=
  match k with
  | RKind.model => ResourceType.model
  | RKind.prefab => ResourceType.prefab

/-- Submit one Model/Prefab request through createTile, keeping the state. -/
def submitOne (env : Env) (s : SysState) (p : Nat) : SysState :=
  (createTile env s (submitKind (env.kind p)) p (env.crc32 p)).2.1

/-- Submit a whole list of Model/Prefab requests, in order, from the initial state. -/
def submitAll (env : Env) (reqs : List Nat) : SysState :=
  reqs.foldl (submitOne env) initState

/-- One editor frame of the render path: the pending prefab second-stage callback
(a resource-readiness event) fires if an entity is in flight, else update runs. -/
def tick (env : Env) (s : SysState) : SysState :=
  if s.entityInFly then (renderPrefabSecondStage true s).1 else (update env s).1

/-- Iterate tick n times. -/
def run (env : Env) : Nat → SysState → SysState
  | 0, s => s
  | Nat.succ n, s => run env n (tick env s)

/-- Body of one ModelPlugin::createTextureTileTask loop iteration (389-464) after
the tile path has been popped: derive the cache path from crc32 of the source
path; for a ".dds" source, open (on failure copy the placeholder and log), crn-
decompress (on failure copy the placeholder — no log), else resize and encode;
for any other source, stbi-decode (on failure log and copy the placeholder), else
resize and encode; an encode/save failure logs "Failed to save". -/
def processTile (env : Env) (tile : Nat) : List Action :=
  let out := env.crc32 tile
  if env.isDds tile then
    if env.openOk tile = false then
      [Action.copyTexturePlaceholder out, Action.logLoadError tile]
    else if env.ddsOk tile = false then
      [Action.copyTexturePlaceholder out]
    else
      (saveAsDDS env out).2 ++
        (if (saveAsDDS env out).1 then [] else [Action.logSaveError out])
  else
    if env.stbiOk tile = false then
      [Action.logLoadError tile, Action.copyTexturePlaceholder out]
    else
      (saveAsDDS env out).2 ++
        (if (saveAsDDS env out).1 then [] else [Action.logSaveError out])

/-- One worker-loop iteration (384-394): under the spin lock, read tiles.back()
and pop it, then process it outside the lock.  Returns the remaining queue and
the processed tile with its effects (none when the queue is empty). -/
def workerStep (env : Env) (tiles : List Nat) :
    List Nat × Option (Nat × List Action) :=
  match tiles.getLast? with
  | none => (tiles, none)
  | some t => (tiles.dropLast, some (t, processTile env t))

/-- Run the worker loop for the given number of wake-ups, collecting the processed
tiles in order. -/
def runWorker (env : Env) : Nat → List Nat → List (Nat × List Action)
  | 0, _ => []
  | Nat.succ n, tiles =>
    match tiles.getLast? with
    | none => []
    | some t => (t, processTile env t) :: runWorker env n tiles.dropLast

/-- One externally triggered operation on the plugin state: a createTile
submission, one editor update tick, or the prefab second-stage callback (which
can only fire while an instantiated entity is in flight, since that is when it is
registered). -/
inductive SysStep : SysState → SysState → Prop where
  | submit (env : Env) (ty : ResourceType) (ip op : Nat) (s : SysState) :
      SysStep s (createTile env s ty ip op).2.1
  | tickUpdate (env : Env) (s : SysState) : SysStep s (update env s).1
  | secondStage (ready : Bool) (s : SysState) (h : s.entityInFly = true) :
      SysStep s (renderPrefabSecondStage ready s).1

/-- States reachable from the initial state by any interleaving of operations. -/
def Reachable (s : SysState) : Prop :=
  Relation.ReflTransGen SysStep initState s

/-- Number of in-flight 3D tile jobs: a pending instantiated entity plus an
active frame countdown each count as one. -/
def inFlightCount (s : SysState) : Nat :=
  (if s.entityInFly then 1 else 0) + (if 0 ≤ s.countdown then 1 else 0)

/-- The countdown, shifted so that idle (-1) is 0. -/
def cdNat (s : SysState) : Nat := (s.countdown + 1).toNat

/-- Termination measure for draining the render path. -/
def measureOf (s : SysState) : Nat :=
  5 * (s.queue.length + s.paths.length) + (if s.entityInFly then 4 else 0) + cdNat s

/-- Structural well-formedness of the render-path state: the ring holds at most 8
requests, the overflow is only used while the ring is full, and the countdown
stays in [-1, 2]. -/
def WF (s : SysState) : Prop :=
  s.queue.length ≤ 8 ∧ (s.paths ≠ [] → s.queue.length = 8) ∧
    -1 ≤ s.countdown ∧ s.countdown ≤ 2

/-- Whether the worker's read/decode of a source image fails (any of the three
failure modes of processTile). -/
def readFails (env : Env) (t : Nat) : Bool :=
  if env.isDds t then !env.openOk t || !env.ddsOk t else !env.stbiOk t

/-- Environment in which every oracle succeeds, every resource is ready, every
request is a model, and the hash is the identity on abstract path ids. -/
def envAllOk : Env :=
  { rdy := fun _ => ResState.ready, kind := fun _ => RKind.model,
    instOk := fun _ => true, isDds := fun _ => false, openOk := fun _ => true,
    ddsOk := fun _ => true, stbiOk := fun _ => true, encodeOk := fun _ => true,
    writeOk := fun _ => true, copyOk := fun _ => true, crc32 := fun p => p }

/-- Environment in which crn_compress always fails. -/
def envEncodeFail : Env := { envAllOk with encodeOk := fun _ => false }

/-- Environment in which every source is a DDS container that opens fine but
fails crn DDS decompression. -/
def envDdsFail : Env :=
  { envAllOk with isDds := fun _ => true, ddsOk := fun _ => false }

/-- Ten model requests 0..9: two more than the ring capacity. -/
def tenReqs : List Nat := [0, 1, 2, 3, 4, 5, 6, 7, 8, 9]

/-- A state that has just entered the draining stage (frame_countdown = 2). -/
def drainState : SysState := { initState with countdown := 2 }

/-- A state one tick before finalize (frame_countdown = 0). -/
def finalizeState : SysState := { initState with countdown := 0, pathHash := 3 }

/-- A state with a single ready model request admitted in the ring. -/
def oneModelState : SysState := { initState with queue := [5] }

/-- The multiset of render-path requests present anywhere in the system: admitted,
overflowed, or already handed to renderTile. -/
def kOf (s : SysState) : List Nat := s.queue ++ s.paths ++ s.processed

theorem update_drain (env : Env) (s : SysState) (h0 : 0 ≤ s.countdown)
    (h1 : s.countdown ≠ 0) :
    update env s = ({ s with countdown := s.countdown - 1 }, []) := by
  have h2 : ¬(s.countdown - 1 = -1) := by omega
  simp [update, h0, h2]

theorem update_finalize (env : Env) (s : SysState) (h0 : s.countdown = 0) :
    update env s =
      ({ s with countdown := -1 },
       (saveAsDDS env s.pathHash).2 ++ [Action.destroyTexture]) := by
  simp [update, h0]

theorem update_entity_waiting (env : Env) (s : SysState) (h0 : s.countdown < 0)
    (h1 : s.entityInFly = true) : update env s = (s, []) := by
  have h0n : ¬ 0 ≤ s.countdown := by omega
  simp [update, h0n, h1]

theorem update_empty_queue (env : Env) (s : SysState) (h0 : s.countdown < 0)
    (h1 : s.entityInFly = false) (h2 : s.queue = []) : update env s = (s, []) := by
  have h0n : ¬ 0 ≤ s.countdown := by omega
  simp [update, h0n, h1, h2]

theorem update_front_loading (env : Env) (s : SysState) (r : Nat) (rest : List Nat)
    (h0 : s.countdown < 0) (h1 : s.entityInFly = false) (hq : s.queue = r :: rest)
    (hr : env.rdy r = ResState.loading) : update env s = (s, []) := by
  have h0n : ¬ 0 ≤ s.countdown := by omega
  simp [update, h0n, h1, hq, hr]

theorem update_front_failure (env : Env) (s : SysState) (r : Nat) (rest : List Nat)
    (h0 : s.countdown < 0) (h1 : s.entityInFly = false) (hq : s.queue = r :: rest)
    (hr : env.rdy r = ResState.failure) :
    update env s = (popTileQueue s, [Action.logLoadError r]) := by
  have h0n : ¬ 0 ≤ s.countdown := by omega
  simp [update, h0n, h1, hq, hr]

theorem update_ready_model (env : Env) (s : SysState) (r : Nat) (rest : List Nat)
    (h0 : s.countdown < 0) (h1 : s.entityInFly = false) (hq : s.queue = r :: rest)
    (hr : env.rdy r = ResState.ready) (hk : env.kind r = RKind.model) :
    update env s = renderTileModel env (popTileQueue s) r := by
  have h0n : ¬ 0 ≤ s.countdown := by omega
  simp [update, h0n, h1, hq, hr, hk]

theorem update_ready_prefab (env : Env) (s : SysState) (r : Nat) (rest : List Nat)
    (h0 : s.countdown < 0) (h1 : s.entityInFly = false) (hq : s.queue = r :: rest)
    (hr : env.rdy r = ResState.ready) (hk : env.kind r = RKind.prefab) :
    update env s = renderTilePrefab env (popTileQueue s) r := by
  have h0n : ¬ 0 ≤ s.countdown := by omega
  simp [update, h0n, h1, hq, hr, hk]

theorem popTileQueue_no_overflow (s : SysState) (h : s.paths = []) :
    popTileQueue s = { s with queue := s.queue.tail } := by
  simp [popTileQueue, h]

theorem popTileQueue_overflow (s : SysState) (ps : List Nat) (p : Nat)
    (h : s.paths = ps ++ [p]) :
    popTileQueue s = { s with queue := s.queue.tail ++ [p], paths := ps } := by
  simp [popTileQueue, pushTileQueue, h, List.getLast?_concat, List.dropLast_concat]

theorem popTileQueue_fields (s : SysState) :
    (popTileQueue s).countdown = s.countdown ∧
    (popTileQueue s).entityInFly = s.entityInFly ∧
    (popTileQueue s).processed = s.processed ∧
    (popTileQueue s).pathHash = s.pathHash := by
  unfold popTileQueue pushTileQueue
  split <;> simp

theorem createTile_fields (env : Env) (s : SysState) (ty : ResourceType)
    (ip op : Nat) :
    (createTile env s ty ip op).2.1.countdown = s.countdown ∧
    (createTile env s ty ip op).2.1.entityInFly = s.entityInFly ∧
    (createTile env s ty ip op).2.1.processed = s.processed := by
  cases ty <;> simp [createTile, pushTileQueue] <;> split <;> simp

theorem saveAsDDS_actions (env : Env) (o : Nat) :
    (saveAsDDS env o).2 = [] ∨ (saveAsDDS env o).2 = [Action.fileWrite o] := by
  unfold saveAsDDS
  split
  · split
    · right; rfl
    · left; rfl
  · left; rfl

theorem runWorker_eq (env : Env) (l : List Nat) :
    runWorker env l.length l = l.reverse.map (fun t => (t, processTile env t)) := by
  induction l using List.reverseRecOn with
  | nil => simp [runWorker]
  | append_singleton xs x ih =>
      simp [runWorker, List.getLast?_concat, List.dropLast_concat, ih]

/-- C1 counterexample: submit ten model requests 0..9 into the empty system (0..7
fill the ring, 8 then 9 overflow).  When the first ring slot is consumed by update,
the refilled request is 9 — the NEWEST overflowed request — while 8, the oldest
(the overflow head), stays behind.  This refutes the claim that the overflow head
is popped and that overflowed requests are admitted in FIFO order of submission. -/
theorem c1_refill_pops_newest :
    (submitAll envAllOk tenReqs).queue = [0, 1, 2, 3, 4, 5, 6, 7] ∧
    (submitAll envAllOk tenReqs).paths = [8, 9] ∧
    (update envAllOk (submitAll envAllOk tenReqs)).1.queue = [1, 2, 3, 4, 5, 6, 7, 9] ∧
    (update envAllOk (submitAll envAllOk tenReqs)).1.paths = [8] := by
  decide

/-- C1 (amended): whenever a ring slot is consumed and the overflow array is
non-empty, its BACK — the most recently overflowed request — is popped and
immediately admitted into the ring; overflow admission is LIFO, and a request
arriving at a full ring is appended at the back of the overflow array. -/
theorem c1_overflow_refill_is_lifo (s : SysState) (ps : List Nat) (p : Nat)
    (h : s.paths = ps ++ [p]) :
    popTileQueue s = { s with queue := s.queue.tail ++ [p], paths := ps } ∧
    (∀ (env : Env) (ip op : Nat), queueFull s.queue = true →
      (createTile env s ResourceType.model ip op).2.1.paths = s.paths ++ [ip]) := by
  refine ⟨popTileQueue_overflow s ps p h, ?_⟩
  intro env ip op hfull
  simp [createTile, hfull]

/-- C1 witness: the amended statement instantiated at the state reached by the ten
concrete submissions of the counterexample. -/
theorem c1_overflow_refill_is_lifo_witness :
    (submitAll envAllOk tenReqs).paths = [8] ++ [9] ∧
    (popTileQueue (submitAll envAllOk tenReqs) =
      { submitAll envAllOk tenReqs with
        queue := (submitAll envAllOk tenReqs).queue.tail ++ [9], paths := [8] } ∧
     ∀ (env : Env) (ip op : Nat), queueFull (submitAll envAllOk tenReqs).queue = true →
      (createTile env (submitAll envAllOk tenReqs) ResourceType.model ip op).2.1.paths =
        (submitAll envAllOk tenReqs).paths ++ [ip]) :=
  ⟨by decide, c1_overflow_refill_is_lifo (submitAll envAllOk tenReqs) [8] 9 (by decide)⟩

/-- C2 counterexample: from a state that has just entered draining (countdown = 2),
the second update call leaves the countdown at 0 and performs no finalize work
(its action list is empty, contradicting that finalize happens on the tick the
countdown reaches 0); the cache write happens only on the third update call. -/
theorem c2_finalize_counterexample :
    (update envAllOk (update envAllOk drainState).1).1.countdown = 0 ∧
    (update envAllOk (update envAllOk drainState).1).2 = [] ∧
    Action.fileWrite 0 ∈
      (update envAllOk (update envAllOk (update envAllOk drainState).1).1).2 := by
  decide

/-- C2 (amended): after the read-back is issued and the job enters draining with
frame_countdown = 2, the first two update calls only decrement the countdown (to 1
then 0) and perform no finalize work; finalize — the save of the pixel buffer and
the destruction of the read-back texture — runs on the third update call, the tick
on which the countdown reaches -1. -/
theorem c2_finalize_on_third_update (env : Env) (s : SysState) (h : s.countdown = 2) :
    (update env s).2 = [] ∧ (update env s).1.countdown = 1 ∧
    (update env (update env s).1).2 = [] ∧
    (update env (update env s).1).1.countdown = 0 ∧
    (update env (update env (update env s).1).1).1.countdown = -1 ∧
    Action.destroyTexture ∈ (update env (update env (update env s).1).1).2 := by
  have e1 : update env s = ({ s with countdown := 1 }, []) := by
    rw [update_drain env s (by omega) (by omega), h]
    norm_num
  have e2 : update env ({ s with countdown := 1 } : SysState) =
      ({ s with countdown := 0 }, []) := by
    rw [update_drain env ({ s with countdown := 1 } : SysState) (by simp) (by simp)]
    norm_num
  have e3 : update env ({ s with countdown := 0 } : SysState) =
      ({ s with countdown := -1 },
       (saveAsDDS env s.pathHash).2 ++ [Action.destroyTexture]) := by
    rw [update_finalize env ({ s with countdown := 0 } : SysState) (by simp)]
  rw [e1]
  simp [e2, e3]

/-- C2 witness: the amended statement instantiated at the concrete draining state. -/
theorem c2_finalize_on_third_update_witness :
    drainState.countdown = 2 ∧
    ((update envAllOk drainState).2 = [] ∧
     (update envAllOk drainState).1.countdown = 1 ∧
     (update envAllOk (update envAllOk drainState).1).2 = [] ∧
     (update envAllOk (update envAllOk drainState).1).1.countdown = 0 ∧
     (update envAllOk (update envAllOk (update envAllOk drainState).1).1).1.countdown = -1 ∧
     Action.destroyTexture ∈
       (update envAllOk (update envAllOk (update envAllOk drainState).1).1).2) :=
  ⟨by decide, c2_finalize_on_third_update envAllOk drainState (by decide)⟩

/-- C4 counterexample: with crn_compress failing, the worker path for source 3
emits only the "Failed to save" log — no placeholder is substituted at the cache
path — and the finalize path emits only the texture destruction: no placeholder
and no log at all.  This refutes the claim that encode failure substitutes the
placeholder tile on both paths. -/
theorem c4_encode_failure_counterexample :
    Action.copyTexturePlaceholder 3 ∉ processTile envEncodeFail 3 ∧
    processTile envEncodeFail 3 = [Action.logSaveError 3] ∧
    Action.copyTexturePlaceholder 3 ∉ (update envEncodeFail finalizeState).2 ∧
    Action.logSaveError 3 ∉ (update envEncodeFail finalizeState).2 := by
  decide

/-- C4 (amended): when tile encoding fails, the background image-worker path logs
the failure and writes nothing (no placeholder is substituted), and the 3D render
pipeline finalize path ignores the failure silently — it neither logs nor
substitutes the placeholder, and only destroys the read-back texture. -/
theorem c4_encode_failure_no_placeholder (env : Env) (t : Nat)
    (hd : env.isDds t = false) (hs : env.stbiOk t = true)
    (he : env.encodeOk (env.crc32 t) = false) :
    processTile env t = [Action.logSaveError (env.crc32 t)] ∧
    (∀ s : SysState, s.countdown = 0 → env.encodeOk s.pathHash = false →
      (update env s).2 = [Action.destroyTexture]) := by
  constructor
  · simp [processTile, hd, hs, saveAsDDS, he]
  · intro s h0 henc
    rw [update_finalize env s h0]
    simp [saveAsDDS, henc]

/-- C4 witness: the amended statement instantiated at the concrete failing encode. -/
theorem c4_encode_failure_no_placeholder_witness :
    envEncodeFail.isDds 3 = false ∧ envEncodeFail.stbiOk 3 = true ∧
    envEncodeFail.encodeOk (envEncodeFail.crc32 3) = false ∧
    (processTile envEncodeFail 3 = [Action.logSaveError (envEncodeFail.crc32 3)] ∧
     ∀ s : SysState, s.countdown = 0 → envEncodeFail.encodeOk s.pathHash = false →
      (update envEncodeFail s).2 = [Action.destroyTexture]) :=
  ⟨rfl, rfl, rfl,
   c4_encode_failure_no_placeholder envEncodeFail 3 rfl rfl rfl⟩

/-- C5 counterexample: for a DDS source that opens but fails crn decompression, the
worker copies the placeholder to the cache path but emits NO log line, refuting
the claim that every read/decode failure is logged. -/
theorem c5_dds_decompress_no_log :
    Action.copyTexturePlaceholder 4 ∈ processTile envDdsFail 4 ∧
    Action.logLoadError 4 ∉ processTile envDdsFail 4 := by
  decide

/-- C5 (amended): for every image tile request whose source cannot be read or
decoded, the worker copies the fixed placeholder tile to the cache path derived
from the request's path hash and continues with the remaining requests; the
failure is additionally logged for file-open and generic-decode failures, but NOT
for a DDS decompression failure. -/
theorem c5_read_failure_placeholder (env : Env) (t : Nat) (h : readFails env t = true) :
    Action.copyTexturePlaceholder (env.crc32 t) ∈ processTile env t ∧
    (Action.logLoadError t ∈ processTile env t ↔
      ¬(env.isDds t = true ∧ env.openOk t = true ∧ env.ddsOk t = false)) ∧
    (∀ pending : List Nat, t ∈ pending →
      ∃ acts, (t, acts) ∈ runWorker env pending.length pending) := by
  refine ⟨?_, ?_, ?_⟩
  · cases hd : env.isDds t <;> cases ho : env.openOk t <;> cases hdds : env.ddsOk t <;>
      cases hs : env.stbiOk t <;>
      simp_all [readFails, processTile]
  · cases hd : env.isDds t <;> cases ho : env.openOk t <;> cases hdds : env.ddsOk t <;>
      cases hs : env.stbiOk t <;>
      simp_all [readFails, processTile]
  · intro pending hmem
    refine ⟨processTile env t, ?_⟩
    rw [runWorker_eq]
    exact List.mem_map.mpr ⟨t, List.mem_reverse.mpr hmem, rfl⟩

/-- C5 witness: the amended statement at the concrete DDS-decompression failure. -/
theorem c5_read_failure_placeholder_witness :
    readFails envDdsFail 4 = true ∧
    (Action.copyTexturePlaceholder (envDdsFail.crc32 4) ∈ processTile envDdsFail 4 ∧
     (Action.logLoadError 4 ∈ processTile envDdsFail 4 ↔
       ¬(envDdsFail.isDds 4 = true ∧ envDdsFail.openOk 4 = true ∧
         envDdsFail.ddsOk 4 = false)) ∧
     ∀ pending : List Nat, 4 ∈ pending →
       ∃ acts, (4, acts) ∈ runWorker envDdsFail pending.length pending) :=
  ⟨by decide, c5_read_failure_placeholder envDdsFail 4 (by decide)⟩

/-- C8: createTile accepts (returns true) every Texture request and every Model and
Prefab request — regardless of ring occupancy — and rejects an unrecognized asset
type with false and no side effect: unchanged state and no external action. -/
theorem c8_createTile_results (env : Env) (s : SysState) (ip op : Nat) :
    (createTile env s ResourceType.texture ip op).1 = true ∧
    (createTile env s ResourceType.model ip op).1 = true ∧
    (createTile env s ResourceType.prefab ip op).1 = true ∧
    createTile env s ResourceType.other ip op = (false, s, []) := by
  refine ⟨rfl, ?_, ?_, rfl⟩ <;>
    · simp only [createTile]
      split <;> rfl

/-- C9 counterexample: with one ready model request in the ring, the very update
that invokes renderTile already destroys the transient entity and unloads the
model resource while the job has merely entered draining (countdown = 2) — no
finalize work (texture destruction or cache write) has happened yet.  This
refutes the claim that the entity and resource live until the finalize tick. -/
theorem c9_release_counterexample :
    Action.destroyEntity ∈ (update envAllOk oneModelState).2 ∧
    Action.unloadResource 5 ∈ (update envAllOk oneModelState).2 ∧
    (update envAllOk oneModelState).1.countdown = 2 ∧
    Action.destroyTexture ∉ (update envAllOk oneModelState).2 ∧
    Action.fileWrite 5 ∉ (update envAllOk oneModelState).2 := by
  decide

/-- C9 (amended): the transient entity and the loaded resource are destroyed and
released before finalize, never by it.  For a ready model request the render step
itself — the update call that issues the read-back and sets the countdown to 2 —
destroys the entity and unloads the model.  For a ready prefab request whose
instantiation succeeds, the first render stage (that same update call) unloads the
prefab even before any read-back is issued, leaving the entity in flight with the
countdown untouched; the second-stage resource callback then issues the read-back,
destroys the in-flight entity and sets the countdown to 2 without releasing any
resource.  The finalize tick (countdown 0, decremented to -1) performs no entity
destruction and no resource release: it only saves the pixel buffer and destroys
the read-back texture. -/
theorem c9_release_before_finalize (env : Env) (s : SysState) (r : Nat)
    (rest : List Nat) (h0 : s.countdown = -1) (h1 : s.entityInFly = false)
    (hq : s.queue = r :: rest) (hr : env.rdy r = ResState.ready) :
    (env.kind r = RKind.model →
      Action.destroyEntity ∈ (update env s).2 ∧
      Action.unloadResource r ∈ (update env s).2 ∧
      Action.readback ∈ (update env s).2 ∧
      (update env s).1.countdown = 2 ∧
      Action.destroyTexture ∉ (update env s).2) ∧
    (env.kind r = RKind.prefab → env.instOk r = true →
      Action.unloadResource r ∈ (update env s).2 ∧
      Action.readback ∉ (update env s).2 ∧
      (update env s).1.entityInFly = true ∧
      (update env s).1.countdown = -1) ∧
    (∀ b : SysState,
      (renderPrefabSecondStage true b).2 = [Action.readback, Action.destroyEntity] ∧
      (renderPrefabSecondStage true b).1.countdown = 2 ∧
      (renderPrefabSecondStage true b).1.entityInFly = false ∧
      (∀ q : Nat, Action.unloadResource q ∉ (renderPrefabSecondStage true b).2)) ∧
    (∀ t : SysState, t.countdown = 0 →
      Action.destroyEntity ∉ (update env t).2 ∧
      Action.destroyTexture ∈ (update env t).2 ∧
      (∀ q : Nat, Action.unloadResource q ∉ (update env t).2)) := by
  refine ⟨?_, ?_, ?_, ?_⟩
  · intro hk
    rw [update_ready_model env s r rest (by omega) h1 hq hr hk]
    simp [renderTileModel]
  · intro hk hi
    rw [update_ready_prefab env s r rest (by omega) h1 hq hr hk]
    have hf := popTileQueue_fields s
    unfold renderTilePrefab
    rw [if_pos hi]
    refine ⟨by simp, by simp, rfl, ?_⟩
    show (popTileQueue s).countdown = -1
    rw [hf.1, h0]
  · intro b
    simp [renderPrefabSecondStage]
  · intro t ht
    rw [update_finalize env t ht]
    rcases saveAsDDS_actions env t.pathHash with hsv | hsv <;> simp [hsv]

/-- C9 witness: the amended statement at the concrete one-request state. -/
theorem c9_release_before_finalize_witness :
    oneModelState.countdown = -1 ∧ oneModelState.entityInFly = false ∧
    oneModelState.queue = 5 :: [] ∧ envAllOk.rdy 5 = ResState.ready ∧
    ((envAllOk.kind 5 = RKind.model →
      Action.destroyEntity ∈ (update envAllOk oneModelState).2 ∧
      Action.unloadResource 5 ∈ (update envAllOk oneModelState).2 ∧
      Action.readback ∈ (update envAllOk oneModelState).2 ∧
      (update envAllOk oneModelState).1.countdown = 2 ∧
      Action.destroyTexture ∉ (update envAllOk oneModelState).2) ∧
     (envAllOk.kind 5 = RKind.prefab → envAllOk.instOk 5 = true →
      Action.unloadResource 5 ∈ (update envAllOk oneModelState).2 ∧
      Action.readback ∉ (update envAllOk oneModelState).2 ∧
      (update envAllOk oneModelState).1.entityInFly = true ∧
      (update envAllOk oneModelState).1.countdown = -1) ∧
     (∀ b : SysState,
       (renderPrefabSecondStage true b).2 = [Action.readback, Action.destroyEntity] ∧
       (renderPrefabSecondStage true b).1.countdown = 2 ∧
       (renderPrefabSecondStage true b).1.entityInFly = false ∧
       (∀ q : Nat, Action.unloadResource q ∉ (renderPrefabSecondStage true b).2)) ∧
     (∀ t : SysState, t.countdown = 0 →
       Action.destroyEntity ∉ (update envAllOk t).2 ∧
       Action.destroyTexture ∈ (update envAllOk t).2 ∧
       (∀ q : Nat, Action.unloadResource q ∉ (update envAllOk t).2))) :=
  ⟨by decide, by decide, by decide, rfl,
   c9_release_before_finalize envAllOk oneModelState 5 [] (by decide) (by decide)
     (by decide) rfl⟩

/-- C10: the background worker serves the shared pending array from its back:
createTile appends a new texture request at the back, and a worker iteration pops
exactly the back element — so with several requests pending, the most recently
submitted one is processed next (LIFO). -/
theorem c10_worker_next_is_newest (env : Env) (s : SysState) (r op : Nat)
    (l : List Nat) (t : Nat) :
    (createTile env s ResourceType.texture r op).2.1.tiles = s.tiles ++ [r] ∧
    workerStep env (l ++ [t]) = (l, some (t, processTile env t)) := by
  refine ⟨rfl, ?_⟩
  simp [workerStep, List.getLast?_concat, List.dropLast_concat]

theorem update_shape (env : Env) (s : SysState) :
    ((update env s).1 = { s with countdown := s.countdown - 1 } ∧ 0 ≤ s.countdown) ∨
    (update env s).1 = s ∨
    (s.countdown < 0 ∧ s.entityInFly = false ∧
      ((update env s).1 = popTileQueue s ∨
       (∃ r, (update env s).1 = (renderTileModel env (popTileQueue s) r).1) ∨
       (∃ r, (update env s).1 = (renderTilePrefab env (popTileQueue s) r).1))) := by
  by_cases hc : 0 ≤ s.countdown
  · by_cases hz : s.countdown = 0
    · left
      refine ⟨?_, hc⟩
      rw [update_finalize env s hz]
      simp [hz]
    · left
      exact ⟨by rw [update_drain env s hc hz], hc⟩
  · have hcl : s.countdown < 0 := by omega
    by_cases he : s.entityInFly = true
    · rw [update_entity_waiting env s hcl he]
      right; left; rfl
    · have he' : s.entityInFly = false := by simpa using he
      cases hq : s.queue with
      | nil =>
          rw [update_empty_queue env s hcl he' hq]
          right; left; rfl
      | cons r rest =>
          cases hr : env.rdy r with
          | loading =>
              rw [update_front_loading env s r rest hcl he' hq hr]
              right; left; rfl
          | failure =>
              rw [update_front_failure env s r rest hcl he' hq hr]
              exact Or.inr (Or.inr ⟨hcl, he', Or.inl rfl⟩)
          | ready =>
              cases hk : env.kind r with
              | model =>
                  rw [update_ready_model env s r rest hcl he' hq hr hk]
                  exact Or.inr (Or.inr ⟨hcl, he', Or.inr (Or.inl ⟨r, rfl⟩)⟩)
              | prefab =>
                  rw [update_ready_prefab env s r rest hcl he' hq hr hk]
                  exact Or.inr (Or.inr ⟨hcl, he', Or.inr (Or.inr ⟨r, rfl⟩)⟩)

theorem popTileQueue_queue_len (s : SysState) (h : s.queue.length ≤ 8) :
    (popTileQueue s).queue.length ≤ 8 := by
  unfold popTileQueue pushTileQueue
  split <;> simp [List.length_tail] <;> omega

theorem inFlight_step {s t : SysState} (hstep : SysStep s t)
    (h : inFlightCount s ≤ 1) : inFlightCount t ≤ 1 := by
  cases hstep with
  | submit env ty ip op =>
      have hf := createTile_fields env s ty ip op
      simpa [inFlightCount, hf.1, hf.2.1] using h
  | tickUpdate env =>
      rcases update_shape env s with ⟨heq, hc⟩ | heq | ⟨hc, hent, hcase⟩
      · rw [heq]
        revert h
        simp only [inFlightCount]
        split_ifs <;> omega
      · rw [heq]; exact h
      · have hf := popTileQueue_fields s
        rcases hcase with hpq | ⟨r, hpq⟩ | ⟨r, hpq⟩ <;> rw [hpq]
        · simp only [inFlightCount, hf.1, hf.2.1, hent]
          split_ifs <;> omega
        · simp [inFlightCount, renderTileModel, hf.2.1, hent]
        · by_cases hi : env.instOk r = true
          · simp only [renderTilePrefab, hi, if_true, inFlightCount]
            simp [hf.1, hf.2.1, hent]
            omega
          · simp only [renderTilePrefab, hi, if_false, Bool.false_eq_true, inFlightCount]
            simp only [hf.1, hf.2.1, hent]
            split_ifs <;> omega
  | secondStage ready hent =>
      unfold renderPrefabSecondStage
      cases ready with
      | true => simp [inFlightCount]
      | false => simpa [inFlightCount] using h

theorem queueLen_step {s t : SysState} (hstep : SysStep s t)
    (h : s.queue.length ≤ 8) : t.queue.length ≤ 8 := by
  cases hstep with
  | submit env ty ip op =>
      cases ty <;> simp only [createTile, pushTileQueue] <;> try exact h
      all_goals
        split
        · exact h
        · next hfull =>
            simp only [queueFull, beq_iff_eq] at hfull
            simp [List.length_append]
            omega
  | tickUpdate env =>
      rcases update_shape env s with ⟨heq, _⟩ | heq | ⟨_, _, hcase⟩
      · rw [heq]; exact h
      · rw [heq]; exact h
      · rcases hcase with hpq | ⟨r, hpq⟩ | ⟨r, hpq⟩ <;> rw [hpq]
        · exact popTileQueue_queue_len s h
        · simpa [renderTileModel] using popTileQueue_queue_len s h
        · by_cases hi : env.instOk r = true <;>
            simpa [renderTilePrefab, hi] using popTileQueue_queue_len s h
  | secondStage ready hent =>
      unfold renderPrefabSecondStage
      cases ready with
      | true => simpa using h
      | false => simpa using h

/-- C6: at every reachable state, under every interleaving of createTile
submissions, update ticks and prefab second-stage callbacks, there is at most one
in-flight 3D tile job: a pending instantiated entity and an active frame
countdown never coexist, so the render pipeline is strictly serial. -/
theorem c6_pipeline_serial (s : SysState) (h : Reachable s) : inFlightCount s ≤ 1 := by
  unfold Reachable at h
  induction h with
  | refl => decide
  | tail hab hbc ih => exact inFlight_step hbc ih

/-- C6 witness: the bound at a concrete reachable state, one submission and one
update past the initial state. -/
theorem c6_pipeline_serial_witness :
    Reachable (update envAllOk (createTile envAllOk initState ResourceType.model 5 5).2.1).1 ∧
    inFlightCount (update envAllOk (createTile envAllOk initState ResourceType.model 5 5).2.1).1 ≤ 1 := by
  have hreach :
      Reachable (update envAllOk (createTile envAllOk initState ResourceType.model 5 5).2.1).1 :=
    Relation.ReflTransGen.tail
      (Relation.ReflTransGen.single (SysStep.submit envAllOk ResourceType.model 5 5 initState))
      (SysStep.tickUpdate envAllOk _)
  exact ⟨hreach, c6_pipeline_serial _ hreach⟩

/-- C7: at every reachable state, under every interleaving of operations, the
render admission ring holds at most 8 requests: createTile diverts arrivals at a
full ring to the overflow array, and the refill after a pop never overfills. -/
theorem c7_admission_ring_bound (s : SysState) (h : Reachable s) :
    s.queue.length ≤ 8 := by
  unfold Reachable at h
  induction h with
  | refl => decide
  | tail hab hbc ih => exact queueLen_step hbc ih

/-- C7 witness: the bound at a concrete reachable state, one submission and one
update past the initial state. -/
theorem c7_admission_ring_bound_witness :
    Reachable (update envAllOk (createTile envAllOk initState ResourceType.model 5 5).2.1).1 ∧
    (update envAllOk (createTile envAllOk initState ResourceType.model 5 5).2.1).1.queue.length ≤ 8 := by
  have hreach :
      Reachable (update envAllOk (createTile envAllOk initState ResourceType.model 5 5).2.1).1 :=
    Relation.ReflTransGen.tail
      (Relation.ReflTransGen.single (SysStep.submit envAllOk ResourceType.model 5 5 initState))
      (SysStep.tickUpdate envAllOk _)
  exact ⟨hreach, c7_admission_ring_bound _ hreach⟩

theorem createTile_render_eq (env : Env) (s : SysState) (ip op : Nat) :
    createTile env s ResourceType.prefab ip op =
      createTile env s ResourceType.model ip op := by
  rfl

theorem submitOne_eq (env : Env) (s : SysState) (p : Nat) :
    submitOne env s p = (createTile env s ResourceType.model p (env.crc32 p)).2.1 := by
  unfold submitOne submitKind
  cases env.kind p
  · rfl
  · rw [createTile_render_eq]

theorem submitOne_props (env : Env) (s : SysState) (p : Nat) (hwf : WF s) :
    WF (submitOne env s p) ∧
    (submitOne env s p).queue ++ (submitOne env s p).paths = (s.queue ++ s.paths) ++ [p] ∧
    (submitOne env s p).countdown = s.countdown ∧
    (submitOne env s p).entityInFly = s.entityInFly ∧
    (submitOne env s p).processed = s.processed := by
  obtain ⟨hlen, hpaths, hcd1, hcd2⟩ := hwf
  rw [submitOne_eq]
  by_cases hfull : queueFull s.queue = true
  · have hstate : (createTile env s ResourceType.model p (env.crc32 p)).2.1 =
        { s with paths := s.paths ++ [p] } := by
      simp [createTile, hfull]
    rw [hstate]
    have h8 : s.queue.length = 8 := by simpa [queueFull] using hfull
    refine ⟨⟨hlen, fun _ => h8, hcd1, hcd2⟩, by simp, rfl, rfl, rfl⟩
  · have hstate : (createTile env s ResourceType.model p (env.crc32 p)).2.1 =
        { s with queue := s.queue ++ [p] } := by
      simp [createTile, pushTileQueue, hfull]
    rw [hstate]
    have hne : ¬ s.queue.length = 8 := by simpa [queueFull] using hfull
    have hpe : s.paths = [] := by
      by_contra hne2
      exact hne (hpaths hne2)
    refine ⟨⟨?_, ?_, hcd1, hcd2⟩, ?_, rfl, rfl, rfl⟩
    · simp only [List.length_append, List.length_singleton]
      omega
    · simp [hpe]
    · simp [hpe]

theorem foldl_submit_props (env : Env) (l : List Nat) :
    ∀ s : SysState, WF s →
      WF (l.foldl (submitOne env) s) ∧
      (l.foldl (submitOne env) s).queue ++ (l.foldl (submitOne env) s).paths =
        (s.queue ++ s.paths) ++ l ∧
      (l.foldl (submitOne env) s).countdown = s.countdown ∧
      (l.foldl (submitOne env) s).entityInFly = s.entityInFly ∧
      (l.foldl (submitOne env) s).processed = s.processed := by
  induction l with
  | nil =>
      intro s hwf
      simp only [List.foldl_nil, List.append_nil]
      exact ⟨hwf, by trivial, by trivial, by trivial, by trivial⟩
  | cons p l ih =>
      intro s hwf
      obtain ⟨hwf1, heq1, hcd1, hent1, hproc1⟩ := submitOne_props env s p hwf
      obtain ⟨hwf2, heq2, hcd2, hent2, hproc2⟩ := ih (submitOne env s p) hwf1
      refine ⟨by simpa only [List.foldl_cons] using hwf2, ?_,
        by rw [List.foldl_cons, hcd2, hcd1], by rw [List.foldl_cons, hent2, hent1],
        by rw [List.foldl_cons, hproc2, hproc1]⟩
      simp only [List.foldl_cons] at heq2 ⊢
      rw [heq2, heq1]
      simp

theorem WF_initState : WF initState := by
  refine ⟨by decide, fun h => absurd rfl h, by decide, by decide⟩

theorem submitAll_props (env : Env) (reqs : List Nat) :
    WF (submitAll env reqs) ∧
    (submitAll env reqs).queue ++ (submitAll env reqs).paths = reqs ∧
    (submitAll env reqs).countdown = -1 ∧
    (submitAll env reqs).entityInFly = false ∧
    (submitAll env reqs).processed = [] := by
  have h := foldl_submit_props env reqs initState WF_initState
  simpa [submitAll, initState] using h

theorem popTileQueue_pop_facts (s : SysState) (r : Nat) (rest : List Nat)
    (hq : s.queue = r :: rest) (hwf : WF s) :
    WF (popTileQueue s) ∧
    (popTileQueue s).queue.length + (popTileQueue s).paths.length + 1 =
      s.queue.length + s.paths.length ∧
    List.Perm ((popTileQueue s).queue ++ (popTileQueue s).paths) (rest ++ s.paths) := by
  obtain ⟨hlen, hpaths, hcd1, hcd2⟩ := hwf
  rcases s.paths.eq_nil_or_concat with hpe | ⟨ps, p, hpe⟩
  · rw [popTileQueue_no_overflow s hpe]
    refine ⟨⟨?_, ?_, hcd1, hcd2⟩, ?_, ?_⟩
    · simp only [hq, List.tail_cons]
      simp only [hq, List.length_cons] at hlen
      omega
    · simp [hpe]
    · simp [hq, hpe]
    · simp [hq, hpe]
  · rw [List.concat_eq_append] at hpe
    rw [popTileQueue_overflow s ps p hpe]
    have h8 : s.queue.length = 8 := hpaths (by rw [hpe]; simp)
    have h7 : rest.length = 7 := by
      simp only [hq, List.length_cons] at h8
      omega
    refine ⟨⟨?_, ?_, hcd1, hcd2⟩, ?_, ?_⟩
    · simp [hq, List.length_append, h7]
    · intro _
      simp [hq, List.length_append, h7]
    · simp only [hq, List.tail_cons, List.length_append, List.length_cons,
        List.length_singleton, hpe]
      omega
    · simp only [hq, List.tail_cons]
      have hassoc : (rest ++ [p]) ++ ps = rest ++ ([p] ++ ps) := List.append_assoc _ _ _
      rw [hassoc, hpe]
      exact List.Perm.append_left rest List.perm_append_comm

theorem kOf_perm_after_pop (s : SysState) (r : Nat) (rest : List Nat)
    (hq : s.queue = r :: rest)
    (hperm2 : List.Perm ((popTileQueue s).queue ++ (popTileQueue s).paths)
      (rest ++ s.paths)) :
    List.Perm (((popTileQueue s).queue ++ (popTileQueue s).paths) ++
      (s.processed ++ [r])) (kOf s) := by
  refine (hperm2.append_right (s.processed ++ [r])).trans ?_
  have h2 : kOf s = r :: ((rest ++ s.paths) ++ s.processed) := by
    unfold kOf
    rw [hq]
    simp only [List.cons_append]
  rw [h2]
  have h3 : (rest ++ s.paths) ++ (s.processed ++ [r]) =
      ((rest ++ s.paths) ++ s.processed) ++ [r] := by
    simp only [List.append_assoc]
  rw [h3]
  exact List.perm_append_comm

theorem tick_facts (env : Env) (hr : ∀ p, env.rdy p = ResState.ready) (s : SysState)
    (hwf : WF s) :
    WF (tick env s) ∧ List.Perm (kOf (tick env s)) (kOf s) ∧
    (measureOf s = 0 → tick env s = s) ∧
    (0 < measureOf s → measureOf (tick env s) < measureOf s) := by
  obtain ⟨hlen, hpaths, hcdlo, hcdhi⟩ := hwf
  by_cases hent : s.entityInFly = true
  · have ht : tick env s = { s with countdown := 2, entityInFly := false } := by
      simp [tick, hent, renderPrefabSecondStage]
    rw [ht]
    refine ⟨⟨hlen, hpaths, show (-1 : Int) ≤ 2 by decide, show (2 : Int) ≤ 2 by decide⟩,
      by simp [kOf], ?_, ?_⟩
    · intro h0
      exfalso
      simp only [measureOf, hent, if_true] at h0
      omega
    · intro _
      have hm1 : measureOf { s with countdown := 2, entityInFly := false } =
          5 * (s.queue.length + s.paths.length) + 3 := by
        simp [measureOf, cdNat]
      have hm2 : measureOf s =
          5 * (s.queue.length + s.paths.length) + 4 + (s.countdown + 1).toNat := by
        simp [measureOf, cdNat, hent]
      rw [hm1, hm2]
      omega
  · have hent' : s.entityInFly = false := by simpa using hent
    by_cases hc : 0 ≤ s.countdown
    · have ht : tick env s = { s with countdown := s.countdown - 1 } := by
        by_cases hz : s.countdown = 0
        · simp [tick, hent', update_finalize env s hz, hz]
        · simp [tick, hent', update_drain env s hc hz]
      rw [ht]
      refine ⟨⟨hlen, hpaths, show -1 ≤ s.countdown - 1 by omega,
        show s.countdown - 1 ≤ 2 by omega⟩, by simp [kOf], ?_, ?_⟩
      · intro h0
        exfalso
        simp only [measureOf, cdNat, hent', if_false] at h0
        omega
      · intro _
        have hm1 : measureOf { s with countdown := s.countdown - 1 } =
            5 * (s.queue.length + s.paths.length) + (s.countdown - 1 + 1).toNat := by
          simp [measureOf, cdNat, hent']
        have hm2 : measureOf s =
            5 * (s.queue.length + s.paths.length) + (s.countdown + 1).toNat := by
          simp [measureOf, cdNat, hent']
        rw [hm1, hm2]
        omega
    · have hcl : s.countdown < 0 := by omega
      have hcd : s.countdown = -1 := by omega
      cases hq : s.queue with
      | nil =>
          have hpe : s.paths = [] := by
            by_contra hne
            have h8 := hpaths hne
            rw [hq] at h8
            simp at h8
          have ht : tick env s = s := by
            simp [tick, hent', update_empty_queue env s hcl hent' hq]
          rw [ht]
          refine ⟨⟨hlen, hpaths, hcdlo, hcdhi⟩, List.Perm.refl _, fun _ => rfl, ?_⟩
          intro hpos
          exfalso
          simp [measureOf, cdNat, hent', hq, hpe, hcd] at hpos
      | cons r rest =>
          have hwf2 : WF s := ⟨hlen, hpaths, hcdlo, hcdhi⟩
          obtain ⟨⟨hl2, hp2, hc2a, hc2b⟩, hlen2, hperm2⟩ :=
            popTileQueue_pop_facts s r rest hq hwf2
          have hf := popTileQueue_fields s
          have hstall : ¬ measureOf s = 0 := by
            simp only [measureOf, cdNat, hent', if_false, hq, List.length_cons]
            omega
          have hms : measureOf s = 5 * (s.queue.length + s.paths.length) := by
            simp [measureOf, cdNat, hent', hcd]
          have hfe : (popTileQueue s).entityInFly = false := by
            rw [hf.2.1]; exact hent'
          have hfc : (popTileQueue s).countdown = -1 := by
            rw [hf.1]; exact hcd
          cases hk : env.kind r with
          | model =>
              have ht : tick env s = (renderTileModel env (popTileQueue s) r).1 := by
                simp [tick, hent',
                  update_ready_model env s r rest hcl hent' hq (hr r) hk]
              rw [ht]
              refine ⟨⟨hl2, hp2, show (-1 : Int) ≤ 2 by decide,
                show (2 : Int) ≤ 2 by decide⟩, ?_, fun h0 => absurd h0 hstall, ?_⟩
              · show List.Perm (((popTileQueue s).queue ++ (popTileQueue s).paths) ++
                  ((popTileQueue s).processed ++ [r])) (kOf s)
                rw [hf.2.2.1]
                exact kOf_perm_after_pop s r rest hq hperm2
              · intro _
                have hm1 : measureOf (renderTileModel env (popTileQueue s) r).1 =
                    5 * ((popTileQueue s).queue.length +
                      (popTileQueue s).paths.length) + 3 := by
                  simp [measureOf, cdNat, renderTileModel, hfe]
                rw [hm1, hms]
                omega
          | prefab =>
              have ht : tick env s = (renderTilePrefab env (popTileQueue s) r).1 := by
                simp [tick, hent',
                  update_ready_prefab env s r rest hcl hent' hq (hr r) hk]
              rw [ht]
              by_cases hi : env.instOk r = true
              · have ht2 : (renderTilePrefab env (popTileQueue s) r).1 =
                    { popTileQueue s with
                      entityInFly := true, pathHash := env.crc32 r, processed := (popTileQueue s).processed ++ [r] } := by
                  unfold renderTilePrefab
                  rw [if_pos hi]
                rw [ht2]
                refine ⟨⟨hl2, hp2, hc2a, hc2b⟩, ?_, fun h0 => absurd h0 hstall, ?_⟩
                · show List.Perm (((popTileQueue s).queue ++ (popTileQueue s).paths) ++
                    ((popTileQueue s).processed ++ [r])) (kOf s)
                  rw [hf.2.2.1]
                  exact kOf_perm_after_pop s r rest hq hperm2
                · intro _
                  have hm1 : measureOf ({ popTileQueue s with
                      entityInFly := true, pathHash := env.crc32 r, processed := (popTileQueue s).processed ++ [r] } : SysState) =
                      5 * ((popTileQueue s).queue.length +
                        (popTileQueue s).paths.length) + 4 := by
                    simp [measureOf, cdNat, hfc]
                  rw [hm1, hms]
                  omega
              · have ht2 : (renderTilePrefab env (popTileQueue s) r).1 =
                    { popTileQueue s with
                      processed := (popTileQueue s).processed ++ [r] } := by
                  unfold renderTilePrefab
                  rw [if_neg hi]
                rw [ht2]
                refine ⟨⟨hl2, hp2, hc2a, hc2b⟩, ?_, fun h0 => absurd h0 hstall, ?_⟩
                · show List.Perm (((popTileQueue s).queue ++ (popTileQueue s).paths) ++
                    ((popTileQueue s).processed ++ [r])) (kOf s)
                  rw [hf.2.2.1]
                  exact kOf_perm_after_pop s r rest hq hperm2
                · intro _
                  have hm1 : measureOf ({ popTileQueue s with
                      processed := (popTileQueue s).processed ++ [r] } : SysState) =
                      5 * ((popTileQueue s).queue.length +
                        (popTileQueue s).paths.length) := by
                    simp [measureOf, cdNat, hfe, hfc]
                  rw [hm1, hms]
                  omega

theorem run_drained (env : Env) (hr : ∀ p, env.rdy p = ResState.ready) :
    ∀ (n : Nat) (s : SysState), WF s → measureOf s ≤ n →
      measureOf (run env n s) = 0 ∧ WF (run env n s) ∧
      List.Perm (kOf (run env n s)) (kOf s) := by
  intro n
  induction n with
  | zero =>
      intro s hwf hm
      exact ⟨Nat.le_zero.mp hm, hwf, List.Perm.refl _⟩
  | succ n ih =>
      intro s hwf hm
      obtain ⟨hwft, hperm, hstall, hdec⟩ := tick_facts env hr s hwf
      by_cases h0 : measureOf s = 0
      · simp only [run]
        rw [hstall h0]
        exact ih s hwf (by omega)
      · simp only [run]
        have hlt := hdec (Nat.pos_of_ne_zero h0)
        obtain ⟨h1, h2, h3⟩ := ih (tick env s) hwft (by omega)
        exact ⟨h1, h2, h3.trans hperm⟩

/-- C3: for every finite batch of Model/Prefab submissions — including batches
exceeding the ring capacity 8 — with every resource eventually ready, each
submitted request is handed to renderTile exactly once after sufficiently many
ticks (5 per request suffice): the processed list is a permutation of the
submitted list, so nothing is lost and nothing is done twice. -/
theorem c3_exactly_once (env : Env) (hr : ∀ p, env.rdy p = ResState.ready)
    (reqs : List Nat) (hnd : reqs.Nodup) :
    List.Perm (run env (5 * reqs.length) (submitAll env reqs)).processed reqs ∧
    ∀ p ∈ reqs,
      ((run env (5 * reqs.length) (submitAll env reqs)).processed).count p = 1 := by
  obtain ⟨hwf0, hqp0, hcd0, hent0, hproc0⟩ := submitAll_props env reqs
  have hm0 : measureOf (submitAll env reqs) = 5 * reqs.length := by
    have hlen : (submitAll env reqs).queue.length + (submitAll env reqs).paths.length =
        reqs.length := by
      rw [← List.length_append, hqp0]
    simp [measureOf, cdNat, hent0, hcd0, hlen]
  obtain ⟨hmend, hwfend, hpermend⟩ :=
    run_drained env hr (5 * reqs.length) (submitAll env reqs) hwf0 (le_of_eq hm0)
  have hlens : (run env (5 * reqs.length) (submitAll env reqs)).queue.length = 0 ∧
      (run env (5 * reqs.length) (submitAll env reqs)).paths.length = 0 := by
    unfold measureOf at hmend
    split at hmend <;> omega
  have hqe : (run env (5 * reqs.length) (submitAll env reqs)).queue = [] :=
    List.length_eq_zero.mp hlens.1
  have hpe : (run env (5 * reqs.length) (submitAll env reqs)).paths = [] :=
    List.length_eq_zero.mp hlens.2
  have hk1 : kOf (run env (5 * reqs.length) (submitAll env reqs)) =
      (run env (5 * reqs.length) (submitAll env reqs)).processed := by
    simp [kOf, hqe, hpe]
  have hk2 : kOf (submitAll env reqs) = reqs := by
    simp [kOf, hproc0, hqp0]
  rw [hk1, hk2] at hpermend
  refine ⟨hpermend, ?_⟩
  intro p hp
  rw [hpermend.count_eq]
  exact List.count_eq_one_of_mem hnd hp

/-- C3 witness: ten distinct requests (two more than the ring capacity) submitted
into the all-ready environment are each processed exactly once within 50 ticks. -/
theorem c3_exactly_once_witness :
    (∀ p, envAllOk.rdy p = ResState.ready) ∧ tenReqs.Nodup ∧
    (List.Perm (run envAllOk (5 * tenReqs.length)
        (submitAll envAllOk tenReqs)).processed tenReqs ∧
     ∀ p ∈ tenReqs,
       ((run envAllOk (5 * tenReqs.length)
         (submitAll envAllOk tenReqs)).processed).count p = 1) :=
  ⟨fun _ => rfl, by decide, c3_exactly_once envAllOk (fun _ => rfl) tenReqs (by decide)⟩

end LumixTiles
